import Mathlib

/-!
Shallow embedding of two FastAPI CRUD services:
`python_fast_apifull.py` (blog API: users, posts, comments) and
`python_rest_api.py` (items API).

Each SQL table is modelled as a list of rows in physical insertion order
together with the next id the storage engine will generate (SQLite integer
primary keys).  `datetime.utcnow()` is impure, so each handler that calls it
takes the observed clock values as explicit `Nat` arguments, one per call
site, in program order.  Handlers that may mutate the table are state-passing
functions returning the new table and an `Except` carrying either the JSON
response or the raised `HTTPException`.
-/

namespace BlogAPI

/-- The payload of a raised `HTTPException`: status code and detail string. -/
structure HTTPErrorResp where
  status_code : Nat
  detail : String
deriving DecidableEq, Repr

/-- A stored table: rows in physical insertion order plus the id the storage
engine will assign to the next inserted row. -/
structure Table (ρ : Type) where
  rows : List ρ
  nextId : Nat
deriving DecidableEq, Repr

/-- Pydantic model `User` (request and response body of POST /users). -/
structure User where
  id : Nat
  username : String
deriving DecidableEq, Repr

/-- A row of the `users` table. -/
structure UserRow where
  id : Nat
  username : String
  hashed_password : String
deriving DecidableEq, Repr

/-- Pydantic model `PostCreate` (request body of POST/PUT posts). -/
structure PostCreate where
  title : String
  content : String
deriving DecidableEq, Repr

/-- Pydantic model `Post`; also the shape of a row of the `posts` table. -/
structure Post where
  id : Nat
  title : String
  content : String
  created_at : Nat
deriving DecidableEq, Repr

/-- Pydantic model `CommentCreate` (request body of POST /comments). -/
structure CommentCreate where
  content : String
  post_id : Nat
deriving DecidableEq, Repr

/-- Pydantic model `Comment`; also the shape of a row of `comments`. -/
structure Comment where
  id : Nat
  content : String
  post_id : Nat
  created_at : Nat
deriving DecidableEq, Repr

/-- `posts.select().where(posts.c.id == post_id)` followed by `fetch_one`:
the first stored row whose id matches. -/
def postsFetchOne (db : Table Post) (post_id : Nat) : Option Post :=
  db.rows.find? fun r => r.id == post_id

/-- Handler of POST /users.  Inserts only `username` and the constant
`"dummy_hash"`; the caller-supplied `user.id` is never written.  The response
carries the generated id and the username. -/
def create_user (db : Table UserRow) (user : User) : Table UserRow × User :=
  let row : UserRow :=
    { id := db.nextId, username := user.username, hashed_password := "dummy_hash" }
  ({ rows := db.rows ++ [row], nextId := db.nextId + 1 },
   { id := db.nextId, username := user.username })

/-- Handler of POST /posts.  The insert stores `title`, `content` and the
column default `created_at = datetime.utcnow()` observed at insert time
(`insertNow`); the response overlays `post.dict()` with the generated id and
a second `datetime.utcnow()` call (`respNow`), without re-reading the row. -/
def create_post (db : Table Post) (post : PostCreate) (insertNow respNow : Nat) :
    Table Post × Post :=
  let row : Post :=
    { id := db.nextId, title := post.title, content := post.content,
      created_at := insertNow }
  ({ rows := db.rows ++ [row], nextId := db.nextId + 1 },
   { id := db.nextId, title := post.title, content := post.content,
     created_at := respNow })

/-- Handler of GET /posts: `posts.select().offset(skip).limit(limit)` with
query parameters defaulting to `skip=0`, `limit=10` when absent. -/
def read_posts (db : Table Post) (skip limit : Option Nat) : List Post :=
  (db.rows.drop (skip.getD 0)).take (limit.getD 10)

/-- Handler of GET /posts/\x7bpost_id\x7d: 404 "Post not found" when the
lookup returns no row, otherwise the row itself. -/
def read_post (db : Table Post) (post_id : Nat) : Except HTTPErrorResp Post :=
  match postsFetchOne db post_id with
  | none => .error { status_code := 404, detail := "Post not found" }
  | some post => .ok post

/-- Handler of PUT /posts/\x7bpost_id\x7d: fetch the row first and raise 404
if absent (leaving the table untouched); otherwise run
`posts.update().where(id == post_id).values(title, content)` and answer with
the request fields overlaid with the path id and the `created_at` of the
previously fetched row. -/
def update_post (db : Table Post) (post_id : Nat) (post : PostCreate) :
    Table Post × Except HTTPErrorResp Post :=
  match postsFetchOne db post_id with
  | none => (db, .error { status_code := 404, detail := "Post not found" })
  | some db_post =>
    let rows := db.rows.map fun r =>
      if r.id == post_id then
        { r with title := post.title, content := post.content }
      else r
    ({ db with rows := rows },
     .ok { id := post_id, title := post.title, content := post.content,
           created_at := db_post.created_at })

/-- Handler of DELETE /posts/\x7bpost_id\x7d: fetch first, 404 if absent,
otherwise `posts.delete().where(id == post_id)`; the success response body
`{"ok": True}` carries no row data, modelled as `Unit`. -/
def delete_post (db : Table Post) (post_id : Nat) :
    Table Post × Except HTTPErrorResp Unit :=
  match postsFetchOne db post_id with
  | none => (db, .error { status_code := 404, detail := "Post not found" })
  | some _ =>
    ({ db with rows := db.rows.filter fun r => r.id != post_id }, .ok ())

/-- Handler of POST /comments.  The insert never consults the posts table;
the response overlays `comment.dict()` with the generated id and a fresh
`datetime.utcnow()` (`respNow`). -/
def create_comment (db : Table Comment) (comment : CommentCreate)
    (insertNow respNow : Nat) : Table Comment × Comment :=
  let row : Comment :=
    { id := db.nextId, content := comment.content, post_id := comment.post_id,
      created_at := insertNow }
  ({ rows := db.rows ++ [row], nextId := db.nextId + 1 },
   { id := db.nextId, content := comment.content, post_id := comment.post_id,
     created_at := respNow })

/-- Pydantic model `ItemCreate` (request body of POST/PUT items). -/
structure ItemCreate where
  name : String
  description : Option String
deriving DecidableEq, Repr

/-- Pydantic model `Item`; also the shape of a row of the `items` table. -/
structure Item where
  id : Nat
  name : String
  description : Option String
deriving DecidableEq, Repr

/-- `db.query(ItemModel).filter(ItemModel.id == item_id).first()`. -/
def itemsFetchOne (db : Table Item) (item_id : Nat) : Option Item :=
  db.rows.find? fun r => r.id == item_id

/-- Handler of POST /items/: insert the supplied fields, `db.refresh` the new
row to learn the generated id, and return that row. -/
def create_item (db : Table Item) (item : ItemCreate) : Table Item × Item :=
  let row : Item :=
    { id := db.nextId, name := item.name, description := item.description }
  ({ rows := db.rows ++ [row], nextId := db.nextId + 1 }, row)

/-- Handler of GET /items/: offset/limit listing, query parameters
defaulting to `skip=0`, `limit=100` when absent. -/
def read_items (db : Table Item) (skip limit : Option Nat) : List Item :=
  (db.rows.drop (skip.getD 0)).take (limit.getD 100)

/-- Handler of GET /items/\x7bitem_id\x7d: 404 "Item not found" when the
lookup returns no row, otherwise the row. -/
def read_item (db : Table Item) (item_id : Nat) : Except HTTPErrorResp Item :=
  match itemsFetchOne db item_id with
  | none => .error { status_code := 404, detail := "Item not found" }
  | some db_item => .ok db_item

/-- Handler of PUT /items/\x7bitem_id\x7d: fetch first, 404 if absent
(table untouched); otherwise `setattr` of every field of `item.dict()`
(`name` and `description`) on the fetched row, commit, refresh, and return
the refreshed row (same id, new name and description). -/
def update_item (db : Table Item) (item_id : Nat) (item : ItemCreate) :
    Table Item × Except HTTPErrorResp Item :=
  match itemsFetchOne db item_id with
  | none => (db, .error { status_code := 404, detail := "Item not found" })
  | some db_item =>
    let rows := db.rows.map fun r =>
      if r.id == item_id then
        { r with name := item.name, description := item.description }
      else r
    ({ db with rows := rows },
     .ok { id := db_item.id, name := item.name, description := item.description })

/-- Handler of DELETE /items/\x7bitem_id\x7d: fetch first, 404 if absent,
otherwise delete the row and return the row fetched before deletion. -/
def delete_item (db : Table Item) (item_id : Nat) :
    Table Item × Except HTTPErrorResp Item :=
  match itemsFetchOne db item_id with
  | none => (db, .error { status_code := 404, detail := "Item not found" })
  | some db_item =>
    ({ db with rows := db.rows.filter fun r => r.id != item_id }, .ok db_item)

/-- Rewriting every row with an id-preserving function commutes with the
lookup by id. -/
theorem find?_map_of_id_eq {ρ : Type} (getId : ρ → Nat) (f : ρ → ρ)
    (hf : ∀ r, getId (f r) = getId r) (i : Nat) (l : List ρ) :
    (l.map f).find? (fun r => getId r == i) =
      (l.find? fun r => getId r == i).map f := by
  rw [List.find?_map]
  have h : ((fun r => getId r == i) ∘ f) = fun r => getId r == i :=
    funext fun r => by simp [Function.comp, hf]
  rw [h]

/-- A list is pointwise related to its image under a map. -/
theorem forall₂_map_self {α : Type} (R : α → α → Prop) (f : α → α)
    (l : List α) (h : ∀ a ∈ l, R a (f a)) : List.Forall₂ R l (l.map f) :=
  List.forall₂_map_right_iff.mpr (List.forall₂_same.mpr h)

/-- Fifteen stored posts, used to instantiate the pagination property. -/
def fifteenPosts : Table Post :=
  { rows := (List.range 15).map fun i =>
      { id := i, title := "t", content := "c", created_at := 0 },
    nextId := 15 }

/-- Claim C2: when the lookup-by-id returns absent, the GET-by-id handlers
answer 404 with detail exactly "Post not found" resp. "Item not found". -/
theorem claim_C2 (pdb : Table Post) (idb : Table Item) (pid iid : Nat)
    (hp : postsFetchOne pdb pid = none) (hi : itemsFetchOne idb iid = none) :
    read_post pdb pid = .error { status_code := 404, detail := "Post not found" } ∧
    read_item idb iid = .error { status_code := 404, detail := "Item not found" } := by
  constructor
  · simp [read_post, hp]
  · simp [read_item, hi]

/-- Witness for C2 at the empty stores and id 5. -/
theorem claim_C2_witness :
    postsFetchOne { rows := [], nextId := 1 } 5 = none ∧
    itemsFetchOne { rows := [], nextId := 1 } 5 = none ∧
    read_post { rows := [], nextId := 1 } 5 =
      .error { status_code := 404, detail := "Post not found" } ∧
    read_item { rows := [], nextId := 1 } 5 =
      .error { status_code := 404, detail := "Item not found" } := by
  refine ⟨rfl, rfl, ?_, ?_⟩
  · exact (claim_C2 { rows := [], nextId := 1 } { rows := [], nextId := 1 } 5 5 rfl rfl).1
  · exact (claim_C2 { rows := [], nextId := 1 } { rows := [], nextId := 1 } 5 5 rfl rfl).2

/-- Claim C5: GET /posts defaults to skip=0, limit=10 and GET /items/ to
skip=0, limit=100; with 15 stored posts the default listing returns exactly
the first 10 rows in insertion order. -/
theorem claim_C5 (pdb : Table Post) (idb : Table Item)
    (h15 : pdb.rows.length = 15) :
    read_posts pdb none none = pdb.rows.take 10 ∧
    (read_posts pdb none none).length = 10 ∧
    read_items idb none none = idb.rows.take 100 := by
  refine ⟨rfl, ?_, rfl⟩
  simp [read_posts, h15]

/-- Witness for C5 at a concrete 15-row posts store. -/
theorem claim_C5_witness :
    fifteenPosts.rows.length = 15 ∧
    (read_posts fifteenPosts none none = fifteenPosts.rows.take 10 ∧
     (read_posts fifteenPosts none none).length = 10 ∧
     read_items { rows := [], nextId := 1 } none none =
       ({ rows := [], nextId := 1 } : Table Item).rows.take 100) :=
  ⟨rfl, claim_C5 fifteenPosts { rows := [], nextId := 1 } rfl⟩

/-- Claim C6: neither PUT /posts/\x7bid\x7d nor PUT /items/\x7bid\x7d ever
changes the id of any stored row: the sequence of row ids is unchanged by
the update handlers, for every id and request body. -/
theorem claim_C6 (pdb : Table Post) (pid : Nat) (p : PostCreate)
    (idb : Table Item) (iid : Nat) (it : ItemCreate) :
    (update_post pdb pid p).1.rows.map Post.id = pdb.rows.map Post.id ∧
    (update_item idb iid it).1.rows.map Item.id = idb.rows.map Item.id := by
  constructor
  · unfold update_post
    cases h : postsFetchOne pdb pid with
    | none => rfl
    | some r =>
      simp only [List.map_map]
      congr 1
      funext r
      by_cases hr : r.id = pid <;> simp [Function.comp, hr]
  · unfold update_item
    cases h : itemsFetchOne idb iid with
    | none => rfl
    | some r =>
      simp only [List.map_map]
      congr 1
      funext r
      by_cases hr : r.id = iid <;> simp [Function.comp, hr]

/-- Claim C8: the caller-supplied id of POST /users is never stored and the
response id is the generated one; two requests differing only in the
caller-supplied id produce identical stores and responses. -/
theorem claim_C8 (db : Table UserRow) (id1 id2 : Nat) (username : String) :
    create_user db { id := id1, username := username } =
      create_user db { id := id2, username := username } ∧
    (create_user db { id := id1, username := username }).2.id = db.nextId ∧
    (create_user db { id := id1, username := username }).1.rows =
      db.rows ++
        [{ id := db.nextId, username := username, hashed_password := "dummy_hash" }] :=
  ⟨rfl, rfl, rfl⟩

/-- Claim C9: POST /comments succeeds for every content and post_id — even
one absent from the posts store — returning the supplied content and
post_id with a generated id; no foreign-key rejection is surfaced. -/
theorem claim_C9 (db : Table Comment) (c : CommentCreate) (t1 t2 : Nat)
    (pdb : Table Post) (_habsent : postsFetchOne pdb c.post_id = none) :
    create_comment db c t1 t2 =
      ({ rows := db.rows ++ [{ id := db.nextId, content := c.content,
                               post_id := c.post_id, created_at := t1 }],
         nextId := db.nextId + 1 },
       { id := db.nextId, content := c.content, post_id := c.post_id,
         created_at := t2 }) := rfl

/-- Witness for C9: commenting on post 42 with an empty posts store. -/
theorem claim_C9_witness :
    postsFetchOne { rows := [], nextId := 1 } 42 = none ∧
    create_comment { rows := [], nextId := 1 }
        { content := "hi", post_id := 42 } 0 1 =
      ({ rows := [{ id := 1, content := "hi", post_id := 42, created_at := 0 }],
         nextId := 2 },
       { id := 1, content := "hi", post_id := 42, created_at := 1 }) :=
  ⟨rfl, claim_C9 { rows := [], nextId := 1 } { content := "hi", post_id := 42 }
    0 1 { rows := [], nextId := 1 } rfl⟩

/-- Claim C10: on an absent id each update/delete handler answers 404 and
returns the store completely unchanged, because the existence check comes
before any mutating statement. -/
theorem claim_C10 (pdb : Table Post) (idb : Table Item) (pid iid : Nat)
    (p : PostCreate) (it : ItemCreate)
    (hp : postsFetchOne pdb pid = none) (hi : itemsFetchOne idb iid = none) :
    update_post pdb pid p =
      (pdb, .error { status_code := 404, detail := "Post not found" }) ∧
    delete_post pdb pid =
      (pdb, .error { status_code := 404, detail := "Post not found" }) ∧
    update_item idb iid it =
      (idb, .error { status_code := 404, detail := "Item not found" }) ∧
    delete_item idb iid =
      (idb, .error { status_code := 404, detail := "Item not found" }) := by
  refine ⟨?_, ?_, ?_, ?_⟩ <;>
    simp [update_post, delete_post, update_item, delete_item, hp, hi]

/-- Witness for C10 at the empty stores, id 7, and concrete bodies. -/
theorem claim_C10_witness :
    postsFetchOne { rows := [], nextId := 1 } 7 = none ∧
    itemsFetchOne { rows := [], nextId := 1 } 7 = none ∧
    (update_post { rows := [], nextId := 1 } 7 { title := "a", content := "b" } =
       ({ rows := [], nextId := 1 },
        .error { status_code := 404, detail := "Post not found" }) ∧
     delete_post { rows := [], nextId := 1 } 7 =
       ({ rows := [], nextId := 1 },
        .error { status_code := 404, detail := "Post not found" }) ∧
     update_item { rows := [], nextId := 1 } 7 { name := "n", description := none } =
       ({ rows := [], nextId := 1 },
        .error { status_code := 404, detail := "Item not found" }) ∧
     delete_item { rows := [], nextId := 1 } 7 =
       ({ rows := [], nextId := 1 },
        .error { status_code := 404, detail := "Item not found" })) :=
  ⟨rfl, rfl,
    claim_C10 { rows := [], nextId := 1 } { rows := [], nextId := 1 } 7 7
      { title := "a", content := "b" } { name := "n", description := none } rfl rfl⟩

/-- Claim C1: PUT /posts/\x7bid\x7d on an existing post succeeds, the
response carries the request title and content and the original
`created_at`, and the store change is a frame: every row keeps its id and
`created_at`, rows with a different id are untouched, and the looked-up row
afterwards is the original row with only title and content replaced. -/
theorem claim_C1 (db : Table Post) (pid : Nat) (p : PostCreate) (row0 : Post)
    (h : postsFetchOne db pid = some row0) :
    ∃ db2 : Table Post,
      update_post db pid p =
        (db2, .ok { id := pid, title := p.title, content := p.content,
                    created_at := row0.created_at }) ∧
      db2.nextId = db.nextId ∧
      postsFetchOne db2 pid =
        some { id := row0.id, title := p.title, content := p.content,
               created_at := row0.created_at } ∧
      List.Forall₂
        (fun r r2 => r2.id = r.id ∧ r2.created_at = r.created_at ∧
          (r.id ≠ pid → r2 = r))
        db.rows db2.rows := by
  have hid : row0.id = pid := by
    have := List.find?_some h
    simpa using this
  refine ⟨{ db with rows := db.rows.map fun r =>
      if r.id == pid then { r with title := p.title, content := p.content }
      else r }, ?_, rfl, ?_, ?_⟩
  · simp [update_post, h]
  · unfold postsFetchOne
    simp only []
    rw [find?_map_of_id_eq Post.id _
      (fun r => by by_cases hr : r.id = pid <;> simp [hr]) pid]
    simp only [postsFetchOne] at h
    rw [h]
    simp [hid]
  · exact forall₂_map_self _ _ _ fun r _ => by
      by_cases hr : r.id = pid <;> simp [hr]

/-- Witness for C1: a one-post store, updating post 1. -/
theorem claim_C1_witness :
    postsFetchOne
        { rows := [{ id := 1, title := "old", content := "oc", created_at := 5 }],
          nextId := 2 } 1 =
      some { id := 1, title := "old", content := "oc", created_at := 5 } ∧
    ∃ db2 : Table Post,
      update_post
          { rows := [{ id := 1, title := "old", content := "oc", created_at := 5 }],
            nextId := 2 } 1 { title := "new", content := "nc" } =
        (db2, .ok { id := 1, title := "new", content := "nc", created_at := 5 }) ∧
      db2.nextId = 2 ∧
      postsFetchOne db2 1 =
        some { id := 1, title := "new", content := "nc", created_at := 5 } ∧
      List.Forall₂
        (fun r r2 => r2.id = r.id ∧ r2.created_at = r.created_at ∧
          (r.id ≠ 1 → r2 = r))
        [{ id := 1, title := "old", content := "oc", created_at := 5 }] db2.rows :=
  ⟨rfl, claim_C1
    { rows := [{ id := 1, title := "old", content := "oc", created_at := 5 }],
      nextId := 2 } 1 { title := "new", content := "nc" }
    { id := 1, title := "old", content := "oc", created_at := 5 } rfl⟩

/-- Claim C3: on a store whose row ids are all below the next generated id,
creating a post and reading it back by the returned id yields a stored post
with exactly the supplied title and content. -/
theorem claim_C3 (db : Table Post) (p : PostCreate) (t1 t2 : Nat)
    (hwf : ∀ r ∈ db.rows, r.id < db.nextId) :
    ∃ db2 resp, create_post db p t1 t2 = (db2, resp) ∧
      ∃ stored, read_post db2 resp.id = .ok stored ∧
        stored.title = p.title ∧ stored.content = p.content := by
  refine ⟨_, _, rfl, ?_⟩
  have hnone : db.rows.find? (fun r => r.id == db.nextId) = none :=
    List.find?_eq_none.mpr fun r hr => by
      simp only [beq_iff_eq]
      exact Nat.ne_of_lt (hwf r hr)
  refine ⟨{ id := db.nextId, title := p.title, content := p.content,
            created_at := t1 }, ?_, rfl, rfl⟩
  simp [create_post, read_post, postsFetchOne, List.find?_append, hnone]

/-- Witness for C3: creating a post on the empty store and reading it back. -/
theorem claim_C3_witness :
    (∀ r ∈ (({ rows := [], nextId := 1 } : Table Post)).rows, r.id < 1) ∧
    ∃ db2 resp,
      create_post { rows := [], nextId := 1 } { title := "a", content := "b" } 3 4 =
        (db2, resp) ∧
      ∃ stored, read_post db2 resp.id = .ok stored ∧
        stored.title = "a" ∧ stored.content = "b" :=
  ⟨fun r hr => by simp at hr,
   claim_C3 { rows := [], nextId := 1 } { title := "a", content := "b" } 3 4
     (fun r hr => by simp at hr)⟩

/-- Claim C4: deleting an existing post succeeds; afterwards GET by that id
answers 404 "Post not found", and a second DELETE for the same id also
answers 404 (not a 500) while leaving the store unchanged. -/
theorem claim_C4 (db : Table Post) (pid : Nat) (row : Post)
    (h : postsFetchOne db pid = some row) :
    ∃ db2, delete_post db pid = (db2, .ok ()) ∧
      read_post db2 pid =
        .error { status_code := 404, detail := "Post not found" } ∧
      delete_post db2 pid =
        (db2, .error { status_code := 404, detail := "Post not found" }) := by
  have hnone :
      (db.rows.filter fun r => r.id != pid).find? (fun r => r.id == pid) = none :=
    List.find?_eq_none.mpr fun x hx => by
      have hm := List.mem_filter.mp hx
      simp only [bne_iff_ne, ne_eq] at hm
      simp only [beq_iff_eq]
      exact hm.2
  refine ⟨{ db with rows := db.rows.filter fun r => r.id != pid }, ?_, ?_, ?_⟩
  · simp [delete_post, h]
  · simp [read_post, postsFetchOne, hnone]
  · simp [delete_post, postsFetchOne, hnone]

/-- Witness for C4: deleting post 1 from a one-post store, twice. -/
theorem claim_C4_witness :
    postsFetchOne
        { rows := [{ id := 1, title := "t", content := "c", created_at := 0 }],
          nextId := 2 } 1 =
      some { id := 1, title := "t", content := "c", created_at := 0 } ∧
    ∃ db2,
      delete_post
          { rows := [{ id := 1, title := "t", content := "c", created_at := 0 }],
            nextId := 2 } 1 =
        (db2, .ok ()) ∧
      read_post db2 1 =
        .error { status_code := 404, detail := "Post not found" } ∧
      delete_post db2 1 =
        (db2, .error { status_code := 404, detail := "Post not found" }) :=
  ⟨rfl, claim_C4
    { rows := [{ id := 1, title := "t", content := "c", created_at := 0 }],
      nextId := 2 } 1 { id := 1, title := "t", content := "c", created_at := 0 } rfl⟩

/-- Claim C7: each create handler answers with the caller-supplied fields
overlaid with server-generated values, never re-reading the stored row; in
particular the `created_at` returned by POST /posts is the clock value of a
second `utcnow` call after the insert, so whenever the two clock readings
differ, the created_at stored in the row differs from the one in the response. -/
theorem claim_C7 (db : Table Post) (p : PostCreate) (tIns tResp : Nat)
    (udb : Table UserRow) (u : User) (cdb : Table Comment) (c : CommentCreate)
    (hne : tIns ≠ tResp) :
    (create_post db p tIns tResp).2 =
      { id := db.nextId, title := p.title, content := p.content,
        created_at := tResp } ∧
    (create_post db p tIns tResp).1.rows =
      db.rows ++ [{ id := db.nextId, title := p.title, content := p.content,
                    created_at := tIns }] ∧
    (∃ stored ∈ (create_post db p tIns tResp).1.rows,
      stored.id = (create_post db p tIns tResp).2.id ∧
      stored.created_at ≠ (create_post db p tIns tResp).2.created_at) ∧
    (create_user udb u).2 = { id := udb.nextId, username := u.username } ∧
    (create_comment cdb c tIns tResp).2 =
      { id := cdb.nextId, content := c.content, post_id := c.post_id,
        created_at := tResp } := by
  refine ⟨rfl, rfl, ?_, rfl, rfl⟩
  exact ⟨{ id := db.nextId, title := p.title, content := p.content,
           created_at := tIns },
    List.mem_append_right _ (List.mem_singleton.mpr rfl), rfl, hne⟩

/-- Witness for C7: create on empty stores with clock readings 3 then 4. -/
theorem claim_C7_witness :
    (3 : Nat) ≠ 4 ∧
    ((create_post { rows := [], nextId := 1 } { title := "a", content := "b" } 3 4).2 =
       { id := 1, title := "a", content := "b", created_at := 4 } ∧
     (create_post { rows := [], nextId := 1 } { title := "a", content := "b" } 3 4).1.rows =
       [] ++ [{ id := 1, title := "a", content := "b", created_at := 3 }] ∧
     (∃ stored ∈ (create_post { rows := [], nextId := 1 }
          { title := "a", content := "b" } 3 4).1.rows,
       stored.id = (create_post { rows := [], nextId := 1 }
          { title := "a", content := "b" } 3 4).2.id ∧
       stored.created_at ≠ (create_post { rows := [], nextId := 1 }
          { title := "a", content := "b" } 3 4).2.created_at) ∧
     (create_user { rows := [], nextId := 1 } { id := 99, username := "u" }).2 =
       { id := 1, username := "u" } ∧
     (create_comment { rows := [], nextId := 1 } { content := "x", post_id := 2 } 3 4).2 =
       { id := 1, content := "x", post_id := 2, created_at := 4 }) :=
  ⟨by decide,
   claim_C7 { rows := [], nextId := 1 } { title := "a", content := "b" } 3 4
     { rows := [], nextId := 1 } { id := 99, username := "u" }
     { rows := [], nextId := 1 } { content := "x", post_id := 2 } (by decide)⟩

end BlogAPI
